import Mathlib

/-!
A shallow embedding of `src/PythonApktool.py` (class `ApkTool`), the single
source file of the repository `QM4RS/python-apktool`.

Modelling conventions:
* The host system is an `Env`: the current working directory (`os.getcwd()`),
  the platform name (`platform.system()`), an oracle `run` giving the outcome
  of launching an external command (via `subprocess.Popen` / `subprocess.run`),
  and an oracle `effect` giving the set of filesystem paths that exist after a
  launched command has run (external tools may create files).
* The filesystem is the set of existing paths, `FS := List String`
  (membership is what `os.path.exists` observes, `glob.glob` scans it).
* Every observable action of the Python code (launching a process, writing to
  its stdin, printing a line, `os.remove`, `os.rename`) is recorded as an
  `Event` in a trace, in program order.
* Python exceptions that can escape a method are modelled with `Except PyExn`.
  `_run_cmd` catches every exception, so the methods that only call it return
  a plain trace; `_sign_apk` / `_zipalign_apk` catch only
  `subprocess.CalledProcessError`, so other exceptions propagate.
* Paths follow POSIX conventions (`os.path.isabs` = starts with `/`), matching
  the non-Windows branch of the code; `platform.system()` is kept in the
  environment because `_find_tool` consults it to choose `which`/`where`.
-/

namespace Apk

/-- Single-quote character (code point 39); Python's `split("'")` splits on it. -/
def quoteChar : Char := Char.ofNat 39

/-- One-character string holding the single quote. -/
def sq : String := String.singleton quoteChar

/-- The filesystem, as the list of paths that currently exist. -/
abbrev FS := List String

deriving instance DecidableEq for Except

/-- Python exceptions that can escape a method of `ApkTool`. -/
inductive PyExn where
  | calledProcessError (cmd : List String) (code : Int)
  | osError (msg : String)
  | fileNotFoundError (msg : String)
deriving DecidableEq, Repr

/-- Outcome of launching one external command: either the launch itself fails
(`OSError` / `FileNotFoundError` from `subprocess`), or the process runs to
completion with an exit code and its merged stdout/stderr lines. -/
inductive ProcOutcome where
  | launchFailure (msg : String)
  | finished (code : Int) (outLines : List String)
deriving DecidableEq, Repr

/-- The host environment: working directory, platform name, the outcome oracle
for launching commands, and the filesystem effect of a completed command. -/
structure Env where
  cwd : String
  osName : String
  run : List String → ProcOutcome
  effect : List String → FS → FS

/-- The fields set on `self` by `ApkTool.__init__` (lines 9-32). -/
structure Config where
  apktool_path : String
  apksigner_path : String
  zipalign_path : String
  keystore_path : String
  keystore_alias : String
  keystore_password : String
  include_paths_in_messages : Bool
deriving DecidableEq, Repr

/-- Observable actions of the Python code, in program order. -/
inductive Event where
  | launch (cmd : List String)
  | stdinWrite (s : String)
  | printed (msg : String)
  | removeFile (p : String)
  | renameFile (src dst : String)
deriving DecidableEq, Repr

/-! ### String primitives used by the source -/

/-- Python `s.startswith(t)`. -/
def pyStartsWith (s t : String) : Bool := t.toList.isPrefixOf s.toList

/-- Python `s.endswith(t)`. -/
def pyEndsWith (s t : String) : Bool := t.toList.isSuffixOf s.toList

/-- Python whitespace characters recognised by `str.strip()`:
space, tab, newline, carriage return, vertical tab, form feed. -/
def isSpaceChar (c : Char) : Bool :=
  c == Char.ofNat 32 || c == Char.ofNat 9 || c == Char.ofNat 10 ||
  c == Char.ofNat 13 || c == Char.ofNat 11 || c == Char.ofNat 12

/-- Python `s.strip()`. -/
def pyStrip (s : String) : String :=
  ⟨((s.toList.dropWhile isSpaceChar).reverse.dropWhile isSpaceChar).reverse⟩

/-- Python `s.split("'")[0]`: everything before the first single quote. -/
def splitQuoteHead (s : String) : String :=
  ⟨s.toList.takeWhile (fun c => c != quoteChar)⟩

/-- Whether `pat` occurs as a contiguous block of `l`. -/
def hasInfix (pat : List Char) : List Char → Bool
  | [] => pat.isPrefixOf []
  | c :: rest => pat.isPrefixOf (c :: rest) || hasInfix pat rest

/-- Python `pat in s` (substring membership). -/
def containsSub (s pat : String) : Bool := hasInfix pat.toList s.toList

/-- Replace every (non-overlapping, leftmost-first) occurrence of `pat` in the
list, as Python `str.replace` does for a nonempty pattern; the `Nat` argument
is recursion fuel, always called with the list's length, which suffices since
every step consumes at least one character. -/
def replaceGo (pat rep : List Char) : Nat → List Char → List Char
  | _, [] => []
  | 0, l => l
  | fuel + 1, c :: rest =>
      if (!pat.isEmpty) && pat.isPrefixOf (c :: rest) then
        rep ++ replaceGo pat rep fuel ((c :: rest).drop pat.length)
      else
        c :: replaceGo pat rep fuel rest

/-- Python `s.replace(pat, rep)` for a nonempty pattern (the source only calls
it with the pattern `".apk"`). -/
def pyReplace (s pat rep : String) : String :=
  ⟨replaceGo pat.toList rep.toList s.toList.length s.toList⟩

/-- Whether a character occurs in a string. -/
def strContains (s : String) (c : Char) : Bool := s.toList.any (fun d => d == c)

/-- Python `s[n:]`. -/
def pyDrop (s : String) (n : Nat) : String := ⟨s.toList.drop n⟩

/-- POSIX `os.path.isabs`. -/
def isAbs (p : String) : Bool := pyStartsWith p "/"

/-- POSIX `os.path.join` for two components. -/
def pyJoin (a b : String) : String :=
  if isAbs b then b
  else if a == "" || pyEndsWith a "/" then a ++ b
  else a ++ "/" ++ b

/-! ### Terminal colour codes (colorama constants) -/

/-- Colorama `Fore.BLUE`. -/
def foreBlue : String := "\x1b[34m"

/-- Colorama `Fore.YELLOW`. -/
def foreYellow : String := "\x1b[33m"

/-- Colorama `Fore.RED`. -/
def foreRed : String := "\x1b[31m"

/-- Colorama `Fore.GREEN`. -/
def foreGreen : String := "\x1b[32m"

/-- Colorama `Style.RESET_ALL`. -/
def styleReset : String := "\x1b[0m"

/-! ### `ApkTool` methods, translated line by line -/

/-- Method `_adjust_path` (lines 58-62): a nonempty relative path is joined
onto the current working directory, everything else is returned unchanged. -/
def adjust_path (cwd path : String) : String :=
  if path != "" && !(isAbs path) then pyJoin cwd path else path

/-- The lookup command `_find_tool` uses (lines 38-41): `where` on Windows,
`which` elsewhere. -/
def which_cmd (env : Env) (tool : String) : List String :=
  if env.osName == "Windows" then ["where", tool] else ["which", tool]

/-- Method `_find_tool` (lines 34-56): run the lookup command with
`check=True`; a non-zero exit (`CalledProcessError`) is caught and yields
`None`, a launch failure propagates, otherwise the stripped stdout is the
path (empty stdout yields `None`). -/
def find_tool (env : Env) (tool : String) : Except PyExn (Option String) :=
  match env.run (which_cmd env tool) with
  | ProcOutcome.launchFailure m => Except.error (PyExn.osError m)
  | ProcOutcome.finished code outLines =>
      if code == 0 then
        let p := pyStrip (String.intercalate "\n" outLines)
        if p == "" then Except.ok none else Except.ok (some p)
      else Except.ok none

/-- The `FileNotFoundError` message raised by `__init__` for a tool. -/
def notFoundMsg (tool : String) : String := tool ++ " not found in system PATH."

/-- One tool-path resolution step of `__init__` (e.g. lines 10-12): an
explicitly given truthy path is adjusted and accepted, otherwise the path is
looked up; a falsy result raises `FileNotFoundError`. -/
def resolve_tool (env : Env) (given : Option String) (tool : String) :
    Except PyExn String := do
  let p? : Option String ←
    match given with
    | some p => if p != "" then pure (some (adjust_path env.cwd p)) else find_tool env tool
    | none => find_tool env tool
  match p? with
  | some q =>
      if q == "" then Except.error (PyExn.fileNotFoundError (notFoundMsg tool))
      else Except.ok q
  | none => Except.error (PyExn.fileNotFoundError (notFoundMsg tool))

/-- Keystore path resolution in `__init__` (lines 22-27): an explicit truthy
path is adjusted, otherwise the default `<cwd>/SignKey/debug.keystore`. -/
def resolve_keystore (env : Env) (given : Option String) : String :=
  match given with
  | some p =>
      if p != "" then adjust_path env.cwd p
      else pyJoin (pyJoin env.cwd "SignKey") "debug.keystore"
  | none => pyJoin (pyJoin env.cwd "SignKey") "debug.keystore"

/-- Constructor `ApkTool.__init__` (lines 9-32). -/
def init (env : Env) (apktool_path apksigner_path zipalign_path keystore_path : Option String)
    (keystore_alias keystore_password : String) (include_paths_in_messages : Bool) :
    Except PyExn Config := do
  let ap ← resolve_tool env apktool_path "apktool"
  let sp ← resolve_tool env apksigner_path "apksigner"
  let zp ← resolve_tool env zipalign_path "zipalign"
  pure ⟨ap, sp, zp, resolve_keystore env keystore_path,
        keystore_alias, keystore_password, include_paths_in_messages⟩

/-- One line of `_print_log` (lines 67-77): strip the decoded line, colour it
by its level marker, and drop the benign `Press any key to continue` echo. -/
def print_log_line (line : String) : List Event :=
  let d := pyStrip line
  if pyStartsWith d "I:" then [Event.printed (foreBlue ++ d ++ styleReset)]
  else if pyStartsWith d "W:" then [Event.printed (foreYellow ++ d ++ styleReset)]
  else if pyStartsWith d "E:" then [Event.printed (foreRed ++ d ++ styleReset)]
  else if containsSub d "Press any key to continue" then []
  else [Event.printed d]

/-- Method `_print_log` (lines 64-79), over the process's output lines. -/
def print_log : List String → List Event
  | [] => []
  | line :: rest => print_log_line line ++ print_log rest

/-- The redaction of the launch-failure message in `_run_cmd` (lines 114-118). -/
def launchErrorMsg (cfg : Config) (m : String) : String :=
  let em := "Error during command execution: " ++ m
  if cfg.include_paths_in_messages then em else splitQuoteHead em

/-- The redaction of the non-zero-exit message in `_run_cmd` (lines 109-113). -/
def returnCodeMsg (cfg : Config) (code : Int) : String :=
  let em := "Command failed with return code " ++ toString code
  if cfg.include_paths_in_messages then em else splitQuoteHead em

/-- Method `_run_cmd` (lines 81-118): launch the command, immediately write a
newline to its stdin, stream (`_print_log`) or discard (`communicate`) its
output, and print a success or failure message depending on the exit code.
Every exception in the body is caught and printed, so the result is a trace
and the filesystem after the command (unchanged when the launch failed). -/
def run_command (cfg : Config) (env : Env) (fs : FS) (cmd : List String)
    (show_log : Bool) (success_message : Option String) : List Event × FS :=
  match env.run cmd with
  | ProcOutcome.launchFailure m =>
      ([Event.launch cmd,
        Event.printed (foreRed ++ launchErrorMsg cfg m ++ styleReset)], fs)
  | ProcOutcome.finished code outLines =>
      let fs1 := env.effect cmd fs
      let logEvents := if show_log then print_log outLines else []
      let tailEvents :=
        if code == 0 then
          match success_message with
          | some m =>
              if cfg.include_paths_in_messages then
                [Event.printed (foreGreen ++ m ++ styleReset)]
              else
                [Event.printed (foreGreen ++ pyStrip (splitQuoteHead m) ++ styleReset)]
          | none => []
        else
          [Event.printed (foreRed ++ returnCodeMsg cfg code ++ styleReset)]
      ([Event.launch cmd, Event.stdinWrite "\n"] ++ logEvents ++ tailEvents, fs1)

/-- The keystore-missing message of `_sign_apk` (lines 125-127). -/
def keystoreMissingMsg (cfg : Config) : String :=
  if cfg.include_paths_in_messages then "Keystore not found at " ++ cfg.keystore_path
  else "Keystore not found."

/-- The string Python renders for a `subprocess.CalledProcessError`. -/
def calledProcessErrorStr (cmd : List String) (code : Int) : String :=
  "Command " ++ sq ++ toString cmd ++ sq ++ " returned non-zero exit status " ++
    toString code ++ "."

/-- The success message of `_sign_apk` (lines 144-147). -/
def signSuccessMsg (cfg : Config) (apk_path : String) : String :=
  if cfg.include_paths_in_messages then
    "Successfully signed " ++ sq ++ apk_path ++ sq ++ " with keystore " ++ sq ++
      cfg.keystore_path ++ sq ++ "."
  else "Successfully signed."

/-- The failure message of `_sign_apk` (lines 149-153). -/
def signFailMsg (cfg : Config) (cmd : List String) (code : Int) : String :=
  if cfg.include_paths_in_messages then
    "Failed to sign APK: " ++ calledProcessErrorStr cmd code
  else "Failed to sign APK."

/-- The `apksigner` command built by `_sign_apk` (lines 132-140). -/
def sign_cmd (cfg : Config) (apk_path : String) : List String :=
  [cfg.apksigner_path, "sign",
   "--ks", cfg.keystore_path,
   "--ks-key-alias", cfg.keystore_alias,
   "--ks-pass", "pass:" ++ cfg.keystore_password,
   "--key-pass", "pass:" ++ cfg.keystore_password,
   "--v4-signing-enabled", "false",
   apk_path]

/-- Method `_sign_apk` (lines 120-154): abort with `False` if the keystore
does not exist; otherwise run `apksigner`, mapping exit 0 to `True` and a
`CalledProcessError` to `False`; a launch failure is not caught and
propagates. Result: trace, filesystem afterwards, and the returned boolean
(or the escaping exception). -/
def sign_apk (cfg : Config) (env : Env) (fs : FS) (apk_path : String) :
    List Event × FS × Except PyExn Bool :=
  if cfg.keystore_path ∈ fs then
    let cmd := sign_cmd cfg apk_path
    match env.run cmd with
    | ProcOutcome.launchFailure m =>
        ([Event.launch cmd], fs, Except.error (PyExn.osError m))
    | ProcOutcome.finished code _ =>
        let fs1 := env.effect cmd fs
        if code == 0 then
          ([Event.launch cmd,
            Event.printed (foreGreen ++ signSuccessMsg cfg apk_path ++ styleReset)],
           fs1, Except.ok true)
        else
          ([Event.launch cmd,
            Event.printed (foreRed ++ signFailMsg cfg cmd code ++ styleReset)],
           fs1, Except.ok false)
  else
    ([Event.printed (foreRed ++ keystoreMissingMsg cfg ++ styleReset)],
     fs, Except.ok false)

/-- The aligned output path computed by `_zipalign_apk` (line 158):
`apk_path.replace('.apk', '_aligned.apk')`. -/
def alignedPathOf (apk_path : String) : String :=
  pyReplace apk_path ".apk" "_aligned.apk"

/-- The `zipalign` command built by `_zipalign_apk` (lines 160-164). -/
def align_cmd (cfg : Config) (apk_path : String) : List String :=
  [cfg.zipalign_path, "-v", "4", apk_path, alignedPathOf apk_path]

/-- The success message of `_zipalign_apk` (lines 171-174). -/
def zipalignSuccessMsg (cfg : Config) (apk_path : String) : String :=
  if cfg.include_paths_in_messages then
    "Successfully zipaligned " ++ sq ++ apk_path ++ sq ++ "."
  else "Successfully zipaligned."

/-- The failure message of `_zipalign_apk` (lines 175-179). -/
def zipalignFailMsg (cfg : Config) (cmd : List String) (code : Int) : String :=
  if cfg.include_paths_in_messages then
    "Failed to zipalign APK: " ++ calledProcessErrorStr cmd code
  else "Failed to zipalign APK."

/-- Removing a path from the filesystem. -/
def fsRemove (fs : FS) (p : String) : FS := fs.filter (fun q => q != p)

/-- Method `_zipalign_apk` (lines 156-179): run `zipalign` into the computed
aligned path; on exit 0, `os.remove` the original and `os.rename` the aligned
file onto it (each syscall is recorded when attempted, and raises
`FileNotFoundError` when its source path does not exist); a non-zero exit
(`CalledProcessError`) is caught and printed; a launch failure propagates. -/
def zipalign_apk (cfg : Config) (env : Env) (fs : FS) (apk_path : String) :
    List Event × FS × Except PyExn Unit :=
  let aligned := alignedPathOf apk_path
  let cmd := align_cmd cfg apk_path
  match env.run cmd with
  | ProcOutcome.launchFailure m =>
      ([Event.launch cmd], fs, Except.error (PyExn.osError m))
  | ProcOutcome.finished code _ =>
      let fs1 := env.effect cmd fs
      if code == 0 then
        if apk_path ∈ fs1 then
          let fs2 := fsRemove fs1 apk_path
          if aligned ∈ fs2 then
            ([Event.launch cmd, Event.removeFile apk_path,
              Event.renameFile aligned apk_path,
              Event.printed (foreGreen ++ zipalignSuccessMsg cfg apk_path ++ styleReset)],
             apk_path :: fsRemove fs2 aligned, Except.ok ())
          else
            ([Event.launch cmd, Event.removeFile apk_path,
              Event.renameFile aligned apk_path],
             fs2, Except.error (PyExn.fileNotFoundError aligned))
        else
          ([Event.launch cmd, Event.removeFile apk_path],
           fs1, Except.error (PyExn.fileNotFoundError apk_path))
      else
        ([Event.launch cmd,
          Event.printed (foreRed ++ zipalignFailMsg cfg cmd code ++ styleReset)],
         fs1, Except.ok ())

/-- Method `decompile` (lines 181-200). -/
def decompile (cfg : Config) (env : Env) (fs : FS) (apk_path : String)
    (output_dir : Option String) (force show_log : Bool) : List Event × FS :=
  let a := adjust_path env.cwd apk_path
  let o : Option String :=
    match output_dir with
    | some d => if d != "" then some (adjust_path env.cwd d) else none
    | none => none
  let cmd := [cfg.apktool_path, "d", a] ++ (if force then ["-f"] else []) ++
    (match o with
     | some d => if d != "" then ["-o", d] else []
     | none => [])
  run_command cfg env fs cmd show_log
    (some ("Successfully decompiled " ++ sq ++ a ++ sq))

/-- The adjusted folder path computed at the start of `build` (line 211). -/
def adjFolder (env : Env) (folder_path : String) : String :=
  adjust_path env.cwd folder_path

/-- The effective output path of `build` (line 212): the adjusted caller path
when truthy, else the default `<adjusted folder>_Signed.apk`. -/
def effOut (env : Env) (folder' : String) (output_apk : Option String) : String :=
  match output_apk with
  | some p => if p != "" then adjust_path env.cwd p else folder' ++ "_Signed.apk"
  | none => folder' ++ "_Signed.apk"

/-- The `apktool b` command built by `build` (lines 214-218). -/
def build_cmd (cfg : Config) (env : Env) (folder_path : String)
    (output_apk : Option String) (force : Bool) : List String :=
  let folder' := adjFolder env folder_path
  let out := effOut env folder' output_apk
  [cfg.apktool_path, "b", folder'] ++ (if force then ["-f"] else []) ++
    (if out != "" then ["-o", out] else [])

/-- The `_run_cmd` step of `build` (lines 220-221). -/
def build_run (cfg : Config) (env : Env) (fs : FS) (folder_path : String)
    (output_apk : Option String) (force show_log : Bool) : List Event × FS :=
  run_command cfg env fs (build_cmd cfg env folder_path output_apk force) show_log
    (some ("Successfully built " ++ sq ++ adjFolder env folder_path ++ sq))

/-- The filesystem after the `apktool b` command of `build` ran. -/
def build_fs1 (cfg : Config) (env : Env) (fs : FS) (folder_path : String)
    (output_apk : Option String) (force show_log : Bool) : FS :=
  (build_run cfg env fs folder_path output_apk force show_log).2

/-- Files matching `glob.glob(os.path.join(dist_dir, '*.apk'))`: direct
children of `dist_dir` whose name ends in `.apk` and does not start with a
dot (glob hides dotfiles), in filesystem order. -/
def globDistApks (fs : FS) (dist_dir : String) : List String :=
  fs.filter (fun p =>
    pyStartsWith p (dist_dir ++ "/") &&
    pyEndsWith p ".apk" &&
    !(strContains (pyDrop p (dist_dir.length + 1)) (Char.ofNat 47)) &&
    !(pyStartsWith (pyDrop p (dist_dir.length + 1)) "."))

/-- The `dist` scan of `build` (lines 227-228). -/
def build_dist_apks (cfg : Config) (env : Env) (fs : FS) (folder_path : String)
    (output_apk : Option String) (force show_log : Bool) : List String :=
  globDistApks (build_fs1 cfg env fs folder_path output_apk force show_log)
    (pyJoin (adjFolder env folder_path) "dist")

/-- The artifact-path determination of `build` (lines 223-231): the effective
output path when it is truthy and exists, else the head of the `dist` scan. -/
def build_apk? (cfg : Config) (env : Env) (fs : FS) (folder_path : String)
    (output_apk : Option String) (force show_log : Bool) : Option String :=
  let out := effOut env (adjFolder env folder_path) output_apk
  if out != "" && out ∈ build_fs1 cfg env fs folder_path output_apk force show_log then
    some out
  else
    (build_dist_apks cfg env fs folder_path output_apk force show_log).head?

/-- The no-artifact message of `build` (lines 232-234). -/
def noApkMsg (cfg : Config) : String :=
  if cfg.include_paths_in_messages then "No APK file found in dist directory after build."
  else "No APK file found after build."

/-- Method `build` (lines 202-242): run `apktool b`, determine the produced
artifact, and when one is found, sign it and — only on signing success —
zipalign it. -/
def build (cfg : Config) (env : Env) (fs : FS) (folder_path : String)
    (output_apk : Option String) (force show_log : Bool) :
    List Event × FS × Except PyExn Unit :=
  let r1 := build_run cfg env fs folder_path output_apk force show_log
  match build_apk? cfg env fs folder_path output_apk force show_log with
  | none =>
      (r1.1 ++ [Event.printed (foreRed ++ noApkMsg cfg ++ styleReset)], r1.2, Except.ok ())
  | some apk =>
      let r2 := sign_apk cfg env r1.2 apk
      match r2.2.2 with
      | Except.error e => (r1.1 ++ r2.1, r2.2.1, Except.error e)
      | Except.ok true =>
          let r3 := zipalign_apk cfg env r2.2.1 apk
          (r1.1 ++ r2.1 ++ r3.1, r3.2.1, r3.2.2)
      | Except.ok false => (r1.1 ++ r2.1, r2.2.1, Except.ok ())

/-- Method `install_framework` (lines 244-261). -/
def install_framework (cfg : Config) (env : Env) (fs : FS) (apk_path : String)
    (tag : Option String) (force show_log : Bool) : List Event × FS :=
  let a := adjust_path env.cwd apk_path
  let cmd := [cfg.apktool_path, "if", a] ++ (if force then ["-f"] else []) ++
    (match tag with
     | some t => if t != "" then ["-t", t] else []
     | none => [])
  run_command cfg env fs cmd show_log
    (some ("Successfully installed framework from " ++ sq ++ a ++ sq))

/-- Method `empty_framework_dir` (lines 263-272). -/
def empty_framework_dir (cfg : Config) (env : Env) (fs : FS) (show_log : Bool) :
    List Event × FS :=
  run_command cfg env fs [cfg.apktool_path, "empty-framework-dir"] show_log
    (some "Successfully emptied the apktool framework directory")

/-! ### Observation predicates on traces -/

/-- Whether an event launches the signer: among the commands the code builds,
exactly the `apksigner` invocations have `"sign"` as their second element
(`apktool b` has `"b"`, `apktool d` has `"d"`, `zipalign` has `"-v"`). -/
def isSignLaunch : Event → Bool
  | Event.launch (_ :: x :: _) => x == "sign"
  | _ => false

/-- Whether an event launches the aligner: among the commands the code
builds, exactly the `zipalign` invocations have `"-v"` as their second
element. -/
def isAlignLaunch : Event → Bool
  | Event.launch (_ :: x :: _) => x == "-v"
  | _ => false

/-- The external signer process was launched somewhere in the trace. -/
def signerLaunched (tr : List Event) : Prop := ∃ e ∈ tr, isSignLaunch e = true

/-- The external aligner process was launched somewhere in the trace. -/
def alignerLaunched (tr : List Event) : Prop := ∃ e ∈ tr, isAlignLaunch e = true

instance (tr : List Event) : Decidable (signerLaunched tr) := by
  unfold signerLaunched
  infer_instance

instance (tr : List Event) : Decidable (alignerLaunched tr) := by
  unfold alignerLaunched
  infer_instance

/-- A message free of the single-quote character; a message truncated at the
first quote, or one of the fixed short forms, satisfies this. -/
def quoteFree (s : String) : Bool := s.toList.all (fun c => c != quoteChar)

/-- Whether an exception is a (modelled) `subprocess.CalledProcessError`. -/
def isCalledProcessErrorExn : PyExn → Bool
  | PyExn.calledProcessError _ _ => true
  | _ => false

/-! ### Concrete fixtures for witnesses and counterexamples -/

/-- A configuration with path display disabled, as built from explicit tool
paths. -/
def cfgA : Config := ⟨"/t/apktool", "/t/apksigner", "/t/zipalign", "/t/ks", "alias", "pw", false⟩

/-- An environment in which every launch succeeds with exit code 0 and no
output, and no command changes the filesystem. -/
def envAllZero : Env :=
  ⟨"/cwd", "Linux", fun _ => ProcOutcome.finished 0 [], fun _ fs => fs⟩

/-- An environment in which the `apktool b` command and the signer exit with
code 1 and everything else succeeds; no command changes the filesystem. -/
def envBuildFail : Env :=
  ⟨"/cwd", "Linux",
   fun c =>
     match c with
     | _ :: "b" :: _ => ProcOutcome.finished 1 []
     | _ :: "sign" :: _ => ProcOutcome.finished 1 []
     | _ => ProcOutcome.finished 0 [],
   fun _ fs => fs⟩

/-- An environment in which only the signer fails (exit code 1); no command
changes the filesystem. -/
def envSignFail : Env :=
  ⟨"/cwd", "Linux",
   fun c =>
     match c with
     | _ :: "sign" :: _ => ProcOutcome.finished 1 []
     | _ => ProcOutcome.finished 0 [],
   fun _ fs => fs⟩

/-- An environment in which the signer process cannot be launched at all and
every other launch succeeds; no command changes the filesystem. -/
def envSignLaunchFail : Env :=
  ⟨"/cwd", "Linux",
   fun c =>
     match c with
     | _ :: "sign" :: _ => ProcOutcome.launchFailure "No such file or directory"
     | _ => ProcOutcome.finished 0 [],
   fun _ fs => fs⟩

/-- An environment in which every launch succeeds and a `zipalign` invocation
creates its output file (its fifth argument); nothing else changes the
filesystem. -/
def envChainOk : Env :=
  ⟨"/cwd", "Linux", fun _ => ProcOutcome.finished 0 [],
   fun c fs =>
     match c with
     | _ :: "-v" :: _ :: _ :: aligned :: _ => aligned :: fs
     | _ => fs⟩

/-- An environment in which the `which` lookup exits with code 1 (tool not on
the PATH) and every other launch succeeds. -/
def envWhichFail : Env :=
  ⟨"/cwd", "Linux",
   fun c =>
     match c with
     | "which" :: _ => ProcOutcome.finished 1 []
     | _ => ProcOutcome.finished 0 [],
   fun _ fs => fs⟩

/-- A log line, as an external tool would emit it, containing a quoted
filesystem path. -/
def secretLogLine : String :=
  "I: Using framework at " ++ sq ++ "/tmp/secret/frame.apk" ++ sq

/-- An environment whose processes succeed and emit `secretLogLine` on their
output stream; no command changes the filesystem. -/
def envLog : Env :=
  ⟨"/cwd", "Linux", fun _ => ProcOutcome.finished 0 [secretLogLine], fun _ fs => fs⟩

/-- A filesystem holding a stale default build output and the keystore. -/
def fsStale : FS := ["/cwd/proj_Signed.apk", "/t/ks"]

/-- A filesystem holding the default build output, a `dist` artifact and the
keystore. -/
def fsBoth : FS := ["/cwd/proj_Signed.apk", "/cwd/proj/dist/app.apk", "/t/ks"]

/-! ### Infrastructure lemmas -/

theorem toList_append (a b : String) : (a ++ b).toList = a.toList ++ b.toList := by
  cases a; cases b; rfl

theorem append_ne_empty (a b : String) (h : b ≠ "") : a ++ b ≠ "" := by
  intro he
  apply h
  have hd := congrArg String.toList he
  rw [toList_append] at hd
  have hb : b.toList = [] := (List.append_eq_nil.mp hd).2
  cases b with
  | mk data =>
      have hdata : data = [] := hb
      rw [hdata]

theorem pyJoin_ne_empty (a b : String) (h : b ≠ "") : pyJoin a b ≠ "" := by
  unfold pyJoin
  split
  · exact h
  · split
    · exact append_ne_empty _ _ h
    · exact append_ne_empty _ _ h

theorem adjust_path_ne_empty (cwd p : String) (h : p ≠ "") : adjust_path cwd p ≠ "" := by
  unfold adjust_path
  split
  · exact pyJoin_ne_empty _ _ h
  · exact h

theorem effOut_ne_empty (env : Env) (folder' : String) (o : Option String) :
    effOut env folder' o ≠ "" := by
  cases o with
  | none =>
      unfold effOut
      exact append_ne_empty _ _ (by decide)
  | some p =>
      simp only [effOut]
      split
      · next hp => exact adjust_path_ne_empty _ _ (bne_iff_ne.mp hp)
      · exact append_ne_empty _ _ (by decide)

theorem takeWhile_all_pred (p : Char → Bool) : ∀ l : List Char, (l.takeWhile p).all p = true := by
  intro l
  induction l with
  | nil => rfl
  | cons c rest ih =>
      rw [List.takeWhile_cons]
      cases hpc : p c with
      | true => simp [hpc, ih]
      | false => rfl

theorem quoteFree_splitQuoteHead (s : String) : quoteFree (splitQuoteHead s) = true :=
  takeWhile_all_pred _ s.toList

theorem quoteFree_append (a b : String) :
    quoteFree (a ++ b) = (quoteFree a && quoteFree b) := by
  unfold quoteFree
  rw [toList_append, List.all_append]

theorem quoteFree_pyStrip (s : String) (h : quoteFree s = true) :
    quoteFree (pyStrip s) = true := by
  unfold quoteFree at h ⊢
  rw [List.all_eq_true] at h ⊢
  intro c hc
  apply h
  have h1 := (List.mem_reverse).mp hc
  have h2 := (List.dropWhile_sublist _).subset h1
  have h3 := (List.mem_reverse).mp h2
  exact (List.dropWhile_sublist _).subset h3

theorem replaceGo_id (pat rep : List Char) :
    ∀ (fuel : Nat) (l : List Char), hasInfix pat l = false → replaceGo pat rep fuel l = l := by
  intro fuel
  induction fuel with
  | zero =>
      intro l _
      cases l <;> rfl
  | succ n ih =>
      intro l h
      cases l with
      | nil => rfl
      | cons c rest =>
          have h' : pat.isPrefixOf (c :: rest) = false ∧ hasInfix pat rest = false := by
            simpa [hasInfix, Bool.or_eq_false_iff] using h
          simp [replaceGo, h'.1, ih rest h'.2]

theorem alignedPathOf_id (p : String) (h : containsSub p ".apk" = false) :
    alignedPathOf p = p := by
  cases p with
  | mk data =>
      unfold alignedPathOf pyReplace
      rw [replaceGo_id _ _ _ _ h]
      rfl

theorem print_log_line_shape (line : String) :
    ∀ e ∈ print_log_line line, ∃ m, e = Event.printed m := by
  intro e he
  simp only [print_log_line] at he
  split at he
  · exact ⟨_, List.mem_singleton.mp he⟩
  · split at he
    · exact ⟨_, List.mem_singleton.mp he⟩
    · split at he
      · exact ⟨_, List.mem_singleton.mp he⟩
      · split at he
        · cases he
        · exact ⟨_, List.mem_singleton.mp he⟩

theorem print_log_shape (lines : List String) :
    ∀ e ∈ print_log lines, ∃ m, e = Event.printed m := by
  induction lines with
  | nil => intro e he; cases he
  | cons l rest ih =>
      intro e he
      unfold print_log at he
      rcases List.mem_append.mp he with h | h
      · exact print_log_line_shape l e h
      · exact ih e h

theorem run_command_events (cfg : Config) (env : Env) (fs : FS) (cmd : List String)
    (sl : Bool) (sm : Option String) :
    ∀ e ∈ (run_command cfg env fs cmd sl sm).1,
      e = Event.launch cmd ∨ e = Event.stdinWrite "\n" ∨ ∃ m, e = Event.printed m := by
  intro e he
  cases henv : env.run cmd with
  | launchFailure m =>
    simp only [run_command, henv] at he
    rcases List.mem_cons.mp he with h | h
    · exact Or.inl h
    · exact Or.inr (Or.inr ⟨_, List.mem_singleton.mp h⟩)
  | finished code outLines =>
    simp only [run_command, henv] at he
    rcases List.mem_append.mp he with h | h
    · rcases List.mem_append.mp h with h2 | h2
      · rcases List.mem_cons.mp h2 with h3 | h3
        · exact Or.inl h3
        · exact Or.inr (Or.inl (List.mem_singleton.mp h3))
      · rcases hsl : sl with _ | _
        · rw [hsl] at h2
          simp at h2
        · rw [hsl] at h2
          simp only [if_pos] at h2
          exact Or.inr (Or.inr (print_log_shape outLines e h2))
    · split at h
      · split at h
        · split at h
          · exact Or.inr (Or.inr ⟨_, List.mem_singleton.mp h⟩)
          · exact Or.inr (Or.inr ⟨_, List.mem_singleton.mp h⟩)
        · cases h
      · exact Or.inr (Or.inr ⟨_, List.mem_singleton.mp h⟩)

theorem build_cmd_cons (cfg : Config) (env : Env) (folder_path : String)
    (output_apk : Option String) (force : Bool) :
    ∃ r, build_cmd cfg env folder_path output_apk force =
      cfg.apktool_path :: "b" :: r :=
  ⟨_, rfl⟩

theorem isSignLaunch_build_cmd (cfg : Config) (env : Env) (folder_path : String)
    (output_apk : Option String) (force : Bool) :
    isSignLaunch (Event.launch (build_cmd cfg env folder_path output_apk force)) = false := by
  obtain ⟨r, hr⟩ := build_cmd_cons cfg env folder_path output_apk force
  rw [hr]
  rfl

theorem isAlignLaunch_build_cmd (cfg : Config) (env : Env) (folder_path : String)
    (output_apk : Option String) (force : Bool) :
    isAlignLaunch (Event.launch (build_cmd cfg env folder_path output_apk force)) = false := by
  obtain ⟨r, hr⟩ := build_cmd_cons cfg env folder_path output_apk force
  rw [hr]
  rfl

theorem isSignLaunch_sign_cmd (cfg : Config) (apk : String) :
    isSignLaunch (Event.launch (sign_cmd cfg apk)) = true := rfl

theorem isAlignLaunch_sign_cmd (cfg : Config) (apk : String) :
    isAlignLaunch (Event.launch (sign_cmd cfg apk)) = false := rfl

theorem isSignLaunch_align_cmd (cfg : Config) (apk : String) :
    isSignLaunch (Event.launch (align_cmd cfg apk)) = false := rfl

theorem isAlignLaunch_align_cmd (cfg : Config) (apk : String) :
    isAlignLaunch (Event.launch (align_cmd cfg apk)) = true := rfl

theorem run_command_pred_false (p : Event → Bool) (cfg : Config) (env : Env) (fs : FS)
    (cmd : List String) (sl : Bool) (sm : Option String)
    (hp1 : p (Event.launch cmd) = false) (hp2 : p (Event.stdinWrite "\n") = false)
    (hp3 : ∀ m, p (Event.printed m) = false) :
    ∀ e ∈ (run_command cfg env fs cmd sl sm).1, p e = false := by
  intro e he
  rcases run_command_events cfg env fs cmd sl sm e he with h | h | ⟨m, h⟩
  · rw [h]; exact hp1
  · rw [h]; exact hp2
  · rw [h]; exact hp3 m

theorem sign_apk_events (cfg : Config) (env : Env) (fs : FS) (apk : String) :
    ∀ e ∈ (sign_apk cfg env fs apk).1,
      e = Event.launch (sign_cmd cfg apk) ∨ ∃ m, e = Event.printed m := by
  intro e he
  unfold sign_apk at he
  split at he
  · cases henv : env.run (sign_cmd cfg apk) with
    | launchFailure m =>
        simp only [henv] at he
        exact Or.inl (List.mem_singleton.mp he)
    | finished code outLines =>
        simp only [henv] at he
        split at he
        · rcases List.mem_cons.mp he with h | h
          · exact Or.inl h
          · exact Or.inr ⟨_, List.mem_singleton.mp h⟩
        · rcases List.mem_cons.mp he with h | h
          · exact Or.inl h
          · exact Or.inr ⟨_, List.mem_singleton.mp h⟩
  · exact Or.inr ⟨_, List.mem_singleton.mp he⟩

theorem sign_apk_no_launch_of_missing (cfg : Config) (env : Env) (fs : FS) (apk : String)
    (h : cfg.keystore_path ∉ fs) :
    ∀ e ∈ (sign_apk cfg env fs apk).1, isSignLaunch e = false := by
  intro e he
  unfold sign_apk at he
  rw [if_neg h] at he
  rw [List.mem_singleton.mp he]
  rfl

theorem sign_apk_launch_mem (cfg : Config) (env : Env) (fs : FS) (apk : String)
    (h : cfg.keystore_path ∈ fs) :
    Event.launch (sign_cmd cfg apk) ∈ (sign_apk cfg env fs apk).1 := by
  unfold sign_apk
  rw [if_pos h]
  cases henv : env.run (sign_cmd cfg apk) with
  | launchFailure m =>
      simp only [henv]
      exact List.mem_singleton.mpr rfl
  | finished code outLines =>
      simp only [henv]
      split
      · exact List.mem_cons_self _ _
      · exact List.mem_cons_self _ _

theorem sign_apk_error_shape (cfg : Config) (env : Env) (fs : FS) (apk : String)
    {e : PyExn} (h : (sign_apk cfg env fs apk).2.2 = Except.error e) :
    ∃ m, e = PyExn.osError m := by
  unfold sign_apk at h
  split at h
  · cases henv : env.run (sign_cmd cfg apk) with
    | launchFailure m =>
        simp only [henv] at h
        exact ⟨m, (Except.error.injEq _ _).mp h.symm⟩
    | finished code outLines =>
        simp only [henv] at h
        split at h <;> cases h
  · cases h

theorem zipalign_events (cfg : Config) (env : Env) (fs : FS) (apk : String) :
    ∀ e ∈ (zipalign_apk cfg env fs apk).1,
      e = Event.launch (align_cmd cfg apk) ∨ (∃ m, e = Event.printed m) ∨
      (∃ p, e = Event.removeFile p) ∨ (∃ s d, e = Event.renameFile s d) := by
  intro e he
  unfold zipalign_apk at he
  cases henv : env.run (align_cmd cfg apk) with
  | launchFailure m =>
      simp only [henv] at he
      exact Or.inl (List.mem_singleton.mp he)
  | finished code outLines =>
      simp only [henv] at he
      split at he
      · split at he
        · split at he
          · rcases List.mem_cons.mp he with h | h
            · exact Or.inl h
            · rcases List.mem_cons.mp h with h2 | h2
              · exact Or.inr (Or.inr (Or.inl ⟨_, h2⟩))
              · rcases List.mem_cons.mp h2 with h3 | h3
                · exact Or.inr (Or.inr (Or.inr ⟨_, _, h3⟩))
                · exact Or.inr (Or.inl ⟨_, List.mem_singleton.mp h3⟩)
          · rcases List.mem_cons.mp he with h | h
            · exact Or.inl h
            · rcases List.mem_cons.mp h with h2 | h2
              · exact Or.inr (Or.inr (Or.inl ⟨_, h2⟩))
              · exact Or.inr (Or.inr (Or.inr ⟨_, _, List.mem_singleton.mp h2⟩))
        · rcases List.mem_cons.mp he with h | h
          · exact Or.inl h
          · exact Or.inr (Or.inr (Or.inl ⟨_, List.mem_singleton.mp h⟩))
      · rcases List.mem_cons.mp he with h | h
        · exact Or.inl h
        · exact Or.inr (Or.inl ⟨_, List.mem_singleton.mp h⟩)

theorem zipalign_error_shape (cfg : Config) (env : Env) (fs : FS) (apk : String)
    {e : PyExn} (h : (zipalign_apk cfg env fs apk).2.2 = Except.error e) :
    isCalledProcessErrorExn e = false := by
  unfold zipalign_apk at h
  cases henv : env.run (align_cmd cfg apk) with
  | launchFailure m =>
      simp only [henv] at h
      rw [← (Except.error.injEq _ _).mp h]
      rfl
  | finished code outLines =>
      simp only [henv] at h
      split at h
      · split at h
        · split at h
          · cases h
          · rw [← (Except.error.injEq _ _).mp h]
            rfl
        · rw [← (Except.error.injEq _ _).mp h]
          rfl
      · cases h

theorem not_mem_fsRemove_self (fs : FS) (p : String) : p ∉ fsRemove fs p := by
  intro h
  have h2 := (List.mem_filter.mp h).2
  simp at h2

theorem run_command_head (cfg : Config) (env : Env) (fs : FS) (cmd : List String)
    (sl : Bool) (sm : Option String) :
    ∃ t, (run_command cfg env fs cmd sl sm).1 = Event.launch cmd :: t := by
  rw [← List.head?_eq_some_iff]
  cases henv : env.run cmd with
  | launchFailure m =>
      simp only [run_command, henv, List.head?_cons]
  | finished code outLines =>
      simp only [run_command, henv, List.cons_append, List.head?_cons]

theorem build_run_head (cfg : Config) (env : Env) (fs : FS) (folder_path : String)
    (output_apk : Option String) (force show_log : Bool) :
    ∃ t, (build_run cfg env fs folder_path output_apk force show_log).1 =
      Event.launch (build_cmd cfg env folder_path output_apk force) :: t := by
  unfold build_run
  exact run_command_head cfg env fs _ show_log _

theorem resolve_tool_explicit (env : Env) (p tool : String) (h : p ≠ "") :
    resolve_tool env (some p) tool = Except.ok (adjust_path env.cwd p) := by
  have hne : (adjust_path env.cwd p == "") = false :=
    beq_eq_false_iff_ne.mpr (adjust_path_ne_empty _ _ h)
  simp only [resolve_tool]
  rw [if_pos (bne_iff_ne.mpr h)]
  simp [hne]
  exact adjust_path_ne_empty env.cwd p h

theorem resolve_tool_lookup_none (env : Env) (given : Option String) (tool : String)
    (hg : given = none ∨ given = some "") (h : find_tool env tool = Except.ok none) :
    resolve_tool env given tool = Except.error (PyExn.fileNotFoundError (notFoundMsg tool)) := by
  rcases hg with hg | hg
  · subst hg
    simp only [resolve_tool]
    rw [h]
    rfl
  · subst hg
    simp only [resolve_tool]
    rw [if_neg (by decide)]
    rw [h]
    rfl

theorem find_tool_some_ne_empty (env : Env) (tool q : String)
    (h : find_tool env tool = Except.ok (some q)) : q ≠ "" := by
  cases henv : env.run (which_cmd env tool) with
  | launchFailure m =>
      simp only [find_tool, henv] at h
      cases h
  | finished code outLines =>
      simp only [find_tool, henv] at h
      split at h
      · split at h
        · cases h
        · next hp =>
            injection h with h2
            injection h2 with h3
            rw [← h3]
            intro hq
            rw [hq] at hp
            cases hp rfl
      · cases h

theorem resolve_tool_lookup_resolves (env : Env) (given : Option String) (tool q : String)
    (hg : given = none ∨ given = some "") (h : find_tool env tool = Except.ok (some q)) :
    resolve_tool env given tool = Except.ok q := by
  have hq : (q == "") = false :=
    beq_eq_false_iff_ne.mpr (find_tool_some_ne_empty env tool q h)
  have hq' : ¬((q == "") = true) := by simp [hq]
  rcases hg with hg | hg
  · subst hg
    simp only [resolve_tool]
    rw [h]
    show (if (q == "") = true then Except.error (PyExn.fileNotFoundError (notFoundMsg tool))
          else Except.ok q) = Except.ok q
    rw [if_neg hq']
  · subst hg
    simp only [resolve_tool]
    rw [if_neg (by decide)]
    rw [h]
    show (if (q == "") = true then Except.error (PyExn.fileNotFoundError (notFoundMsg tool))
          else Except.ok q) = Except.ok q
    rw [if_neg hq']

/-! ### Claim theorems -/

/-- C3 (confirmed): for every artifact path, if the configured keystore file
does not exist on disk, the internal sign step prints a failure message,
returns failure (`False`), and never launches the external signer process. -/
theorem C3_theorem (cfg : Config) (env : Env) (fs : FS) (apk_path : String)
    (h : cfg.keystore_path ∉ fs) :
    sign_apk cfg env fs apk_path =
      ([Event.printed (foreRed ++ keystoreMissingMsg cfg ++ styleReset)], fs, Except.ok false) ∧
    ∀ c, Event.launch c ∉ (sign_apk cfg env fs apk_path).1 := by
  have h1 : sign_apk cfg env fs apk_path =
      ([Event.printed (foreRed ++ keystoreMissingMsg cfg ++ styleReset)], fs, Except.ok false) := by
    unfold sign_apk
    rw [if_neg h]
  refine ⟨h1, ?_⟩
  intro c hc
  rw [h1] at hc
  simp at hc

/-- Witness for C3 at a concrete input: with an empty filesystem the keystore
is missing and the sign step returns `False` after a single printed message. -/
theorem C3_witness :
    sign_apk cfgA envAllZero [] "x.apk" =
      ([Event.printed (foreRed ++ keystoreMissingMsg cfgA ++ styleReset)], ([] : FS),
       Except.ok false) :=
  (C3_theorem cfgA envAllZero [] "x.apk" (List.not_mem_nil _)).1

/-- C10 (confirmed): the aligned path is the artifact path with every
occurrence of `.apk` replaced by `_aligned.apk`; for an artifact path with no
`.apk` substring the aligned path equals the artifact path itself, and on
aligner success the step deletes that very file and then attempts to rename
the path onto itself (so nothing is produced alongside the original, and the
rename raises with the path gone). -/
theorem C10_theorem (cfg : Config) (env : Env) (fs : FS) (p : String)
    (h1 : containsSub p ".apk" = false)
    (h2 : ∃ out, env.run (align_cmd cfg p) = ProcOutcome.finished 0 out)
    (h3 : p ∈ env.effect (align_cmd cfg p) fs) :
    alignedPathOf p = p ∧
    zipalign_apk cfg env fs p =
      ([Event.launch (align_cmd cfg p), Event.removeFile p, Event.renameFile p p],
       fsRemove (env.effect (align_cmd cfg p) fs) p,
       Except.error (PyExn.fileNotFoundError p)) := by
  obtain ⟨out, heq⟩ := h2
  have ha : alignedPathOf p = p := alignedPathOf_id p h1
  refine ⟨ha, ?_⟩
  unfold zipalign_apk
  simp only [heq, ha]
  simp [h3, not_mem_fsRemove_self]

/-- Witness for C10 at the concrete artifact path `pkg.zip`. -/
theorem C10_witness :
    alignedPathOf "pkg.zip" = "pkg.zip" ∧
    zipalign_apk cfgA envAllZero ["pkg.zip"] "pkg.zip" =
      ([Event.launch (align_cmd cfgA "pkg.zip"), Event.removeFile "pkg.zip",
        Event.renameFile "pkg.zip" "pkg.zip"],
       fsRemove (envAllZero.effect (align_cmd cfgA "pkg.zip") ["pkg.zip"]) "pkg.zip",
       Except.error (PyExn.fileNotFoundError "pkg.zip")) :=
  C10_theorem cfgA envAllZero ["pkg.zip"] "pkg.zip" (by decide) ⟨[], rfl⟩ (by decide)

/-- Counterexample to C6 as stated: at the artifact path `artifact.zip` the
aligner invocation succeeds, yet afterwards nothing occupies the original
path (the filesystem is empty) and the step raises instead of installing an
aligned file at the original's path. -/
theorem C6_counterexample :
    envAllZero.run (align_cmd cfgA "artifact.zip") = ProcOutcome.finished 0 [] ∧
    (zipalign_apk cfgA envAllZero ["artifact.zip"] "artifact.zip").2.1 = [] ∧
    (zipalign_apk cfgA envAllZero ["artifact.zip"] "artifact.zip").2.2 =
      Except.error (PyExn.fileNotFoundError "artifact.zip") := by
  refine ⟨rfl, ?_, ?_⟩ <;> decide

/-- C6 (corrected): for every artifact path whose computed aligned path
differs from it (in particular any path containing `.apk`), if the aligner
invocation succeeds and the aligned file exists alongside the original, the
align step deletes the original artifact and renames the aligned file onto
the original's path, so the original path is occupied and the aligned
temporary name is gone. -/
theorem C6_theorem (cfg : Config) (env : Env) (fs : FS) (p : String)
    (h1 : alignedPathOf p ≠ p)
    (h2 : ∃ out, env.run (align_cmd cfg p) = ProcOutcome.finished 0 out)
    (h3 : p ∈ env.effect (align_cmd cfg p) fs)
    (h4 : alignedPathOf p ∈ env.effect (align_cmd cfg p) fs) :
    (zipalign_apk cfg env fs p).2.2 = Except.ok () ∧
    p ∈ (zipalign_apk cfg env fs p).2.1 ∧
    alignedPathOf p ∉ (zipalign_apk cfg env fs p).2.1 ∧
    (zipalign_apk cfg env fs p).1 =
      [Event.launch (align_cmd cfg p), Event.removeFile p,
       Event.renameFile (alignedPathOf p) p,
       Event.printed (foreGreen ++ zipalignSuccessMsg cfg p ++ styleReset)] := by
  obtain ⟨out, heq⟩ := h2
  have h4' : alignedPathOf p ∈ fsRemove (env.effect (align_cmd cfg p) fs) p :=
    List.mem_filter.mpr ⟨h4, bne_iff_ne.mpr h1⟩
  unfold zipalign_apk
  simp only [heq]
  simp [h3, h4', h1, not_mem_fsRemove_self]

/-- Witness for C6 at the concrete artifact path `app.apk`, in an environment
whose aligner creates the aligned output file. -/
theorem C6_witness :
    (zipalign_apk cfgA envChainOk ["app.apk"] "app.apk").2.2 = Except.ok () ∧
    "app.apk" ∈ (zipalign_apk cfgA envChainOk ["app.apk"] "app.apk").2.1 ∧
    alignedPathOf "app.apk" ∉ (zipalign_apk cfgA envChainOk ["app.apk"] "app.apk").2.1 ∧
    (zipalign_apk cfgA envChainOk ["app.apk"] "app.apk").1 =
      [Event.launch (align_cmd cfgA "app.apk"), Event.removeFile "app.apk",
       Event.renameFile (alignedPathOf "app.apk") "app.apk",
       Event.printed (foreGreen ++ zipalignSuccessMsg cfgA "app.apk" ++ styleReset)] :=
  C6_theorem cfgA envChainOk ["app.apk"] "app.apk" (by decide) ⟨[], rfl⟩ (by decide) (by decide)

/-- Counterexample to C9 as stated: with `outputPackage` omitted, the
constructed command still carries an `-o` argument (with the default
`<folderPath>_Signed.apk`). -/
theorem C9_counterexample :
    (build cfgA envAllZero [] "proj" none true false).1.head? =
      some (Event.launch
        ["/t/apktool", "b", "/cwd/proj", "-f", "-o", "/cwd/proj_Signed.apk"]) ∧
    "-o" ∈ ["/t/apktool", "b", "/cwd/proj", "-f", "-o", "/cwd/proj_Signed.apk"] := by
  refine ⟨?_, by decide⟩
  decide

/-- C9 (corrected): `build` constructs `<decompiler> b <adjusted folderPath>`
followed by `-f` when `force` is set, and always followed by `-o <out>`,
where `out` is the adjusted caller-supplied `outputPackage` when one is given
and the default `<adjusted folderPath>_Signed.apk` otherwise; this command is
the first process launched. -/
theorem C9_theorem (cfg : Config) (env : Env) (fs : FS) (folder_path : String)
    (output_apk : Option String) (force show_log : Bool) :
    (build cfg env fs folder_path output_apk force show_log).1.head? =
      some (Event.launch
        ([cfg.apktool_path, "b", adjFolder env folder_path] ++
         (if force then ["-f"] else []) ++
         ["-o", effOut env (adjFolder env folder_path) output_apk])) := by
  have hcmd : build_cmd cfg env folder_path output_apk force =
      [cfg.apktool_path, "b", adjFolder env folder_path] ++
      (if force then ["-f"] else []) ++
      ["-o", effOut env (adjFolder env folder_path) output_apk] := by
    simp only [build_cmd]
    rw [if_pos (bne_iff_ne.mpr (effOut_ne_empty env (adjFolder env folder_path) output_apk))]
  obtain ⟨t, ht⟩ := build_run_head cfg env fs folder_path output_apk force show_log
  cases happ : build_apk? cfg env fs folder_path output_apk force show_log with
  | none =>
      simp only [build, happ, ht, List.cons_append, List.head?_cons, hcmd]
  | some apk =>
      cases hsig : (sign_apk cfg env
          (build_run cfg env fs folder_path output_apk force show_log).2 apk).2.2 with
      | error e =>
          simp only [build, happ, hsig, ht, List.cons_append, List.head?_cons, hcmd]
      | ok b =>
          cases b with
          | true =>
              simp only [build, happ, hsig, ht, List.cons_append, List.head?_cons, hcmd]
          | false =>
              simp only [build, happ, hsig, ht, List.cons_append, List.head?_cons, hcmd]

/-- Counterexample to C2 as stated: construction with explicitly supplied,
nonexistent tool paths succeeds, although those paths exist in no filesystem
at all, so an instance with dangling tool paths can be constructed. -/
theorem C2_counterexample :
    init envAllZero (some "/no/apktool") (some "/no/apksigner") (some "/no/zipalign") none
        "a" "p" false =
      Except.ok ⟨"/no/apktool", "/no/apksigner", "/no/zipalign",
                 "/cwd/SignKey/debug.keystore", "a", "p", false⟩ ∧
    "/no/apktool" ∉ ([] : FS) := by
  refine ⟨by decide, by decide⟩

/-- C2 (corrected): construction performs no existence check on explicitly
supplied tool paths â any nonempty explicit path, in any of the three slots,
is accepted after normalisation â and a tool slot resolved via the platform
lookup is accepted exactly when the lookup yields a path; construction fails
with that tool’s not-found error when an omitted (or empty-string) tool
path’s lookup resolves to nothing, for each of the three tools. -/
theorem C2_theorem (env : Env) (ap sp zp ks : Option String) (al pw : String) (inc : Bool) :
    (∀ p tool, p ≠ "" →
      resolve_tool env (some p) tool = Except.ok (adjust_path env.cwd p)) ∧
    (∀ (given : Option String) (tool q : String), (given = none ∨ given = some "") →
      find_tool env tool = Except.ok (some q) →
      resolve_tool env given tool = Except.ok q) ∧
    (∀ a b c, resolve_tool env ap "apktool" = Except.ok a →
      resolve_tool env sp "apksigner" = Except.ok b →
      resolve_tool env zp "zipalign" = Except.ok c →
      init env ap sp zp ks al pw inc =
        Except.ok ⟨a, b, c, resolve_keystore env ks, al, pw, inc⟩) ∧
    ((ap = none ∨ ap = some "") → find_tool env "apktool" = Except.ok none →
      init env ap sp zp ks al pw inc =
        Except.error (PyExn.fileNotFoundError (notFoundMsg "apktool"))) ∧
    (∀ a, resolve_tool env ap "apktool" = Except.ok a →
      (sp = none ∨ sp = some "") → find_tool env "apksigner" = Except.ok none →
      init env ap sp zp ks al pw inc =
        Except.error (PyExn.fileNotFoundError (notFoundMsg "apksigner"))) ∧
    (∀ a b, resolve_tool env ap "apktool" = Except.ok a →
      resolve_tool env sp "apksigner" = Except.ok b →
      (zp = none ∨ zp = some "") → find_tool env "zipalign" = Except.ok none →
      init env ap sp zp ks al pw inc =
        Except.error (PyExn.fileNotFoundError (notFoundMsg "zipalign"))) := by
  refine ⟨?_, ?_, ?_, ?_, ?_, ?_⟩
  · intro p tool h
    exact resolve_tool_explicit env p tool h
  · intro given tool q hg h
    exact resolve_tool_lookup_resolves env given tool q hg h
  · intro a b c h1 h2 h3
    unfold init
    rw [h1, h2, h3]
    rfl
  · intro hg hf
    unfold init
    rw [resolve_tool_lookup_none env ap "apktool" hg hf]
    rfl
  · intro a h1 hg hf
    unfold init
    rw [h1, resolve_tool_lookup_none env sp "apksigner" hg hf]
    rfl
  · intro a b h1 h2 hg hf
    unfold init
    rw [h1, h2, resolve_tool_lookup_none env zp "zipalign" hg hf]
    rfl

/-- Witness for C2 at concrete inputs: three explicit dangling paths are
accepted, and each tool slot in turn — apktool omitted, apksigner supplied as
the empty string, zipalign omitted — makes construction fail with that
tool’s not-found error when the lookup resolves nothing. -/
theorem C2_witness :
    init envWhichFail (some "/x/apktool") (some "/x/apksigner") (some "/x/zipalign") none
        "a" "p" true =
      Except.ok ⟨"/x/apktool", "/x/apksigner", "/x/zipalign",
                 resolve_keystore envWhichFail none, "a", "p", true⟩ ∧
    init envWhichFail none (some "/x/apksigner") (some "/x/zipalign") none "a" "p" true =
      Except.error (PyExn.fileNotFoundError (notFoundMsg "apktool")) ∧
    init envWhichFail (some "/x/apktool") (some "") (some "/x/zipalign") none "a" "p" true =
      Except.error (PyExn.fileNotFoundError (notFoundMsg "apksigner")) ∧
    init envWhichFail (some "/x/apktool") (some "/x/apksigner") none none "a" "p" true =
      Except.error (PyExn.fileNotFoundError (notFoundMsg "zipalign")) := by
  refine ⟨?_, ?_, ?_, ?_⟩
  · exact (C2_theorem envWhichFail (some "/x/apktool") (some "/x/apksigner")
      (some "/x/zipalign") none "a" "p" true).2.2.1 "/x/apktool" "/x/apksigner"
      "/x/zipalign" (by decide) (by decide) (by decide)
  · exact (C2_theorem envWhichFail none (some "/x/apksigner") (some "/x/zipalign") none
      "a" "p" true).2.2.2.1 (Or.inl rfl) (by decide)
  · exact (C2_theorem envWhichFail (some "/x/apktool") (some "") (some "/x/zipalign") none
      "a" "p" true).2.2.2.2.1 "/x/apktool" (by decide) (Or.inr rfl) (by decide)
  · exact (C2_theorem envWhichFail (some "/x/apktool") (some "/x/apksigner") none none
      "a" "p" true).2.2.2.2.2 "/x/apktool" "/x/apksigner" (by decide) (by decide)
      (Or.inl rfl) (by decide)

theorem build_run_no_sign (cfg : Config) (env : Env) (fs : FS) (folder_path : String)
    (output_apk : Option String) (force show_log : Bool) :
    ∀ e ∈ (build_run cfg env fs folder_path output_apk force show_log).1,
      isSignLaunch e = false := by
  unfold build_run
  exact run_command_pred_false isSignLaunch cfg env fs _ show_log _
    (isSignLaunch_build_cmd cfg env folder_path output_apk force) rfl (fun m => rfl)

theorem build_run_no_align (cfg : Config) (env : Env) (fs : FS) (folder_path : String)
    (output_apk : Option String) (force show_log : Bool) :
    ∀ e ∈ (build_run cfg env fs folder_path output_apk force show_log).1,
      isAlignLaunch e = false := by
  unfold build_run
  exact run_command_pred_false isAlignLaunch cfg env fs _ show_log _
    (isAlignLaunch_build_cmd cfg env folder_path output_apk force) rfl (fun m => rfl)

theorem sign_apk_no_align (cfg : Config) (env : Env) (fs : FS) (apk : String) :
    ∀ e ∈ (sign_apk cfg env fs apk).1, isAlignLaunch e = false := by
  intro e he
  rcases sign_apk_events cfg env fs apk e he with h | ⟨m, h⟩
  · rw [h]
    exact isAlignLaunch_sign_cmd cfg apk
  · rw [h]
    rfl

theorem zipalign_no_sign (cfg : Config) (env : Env) (fs : FS) (apk : String) :
    ∀ e ∈ (zipalign_apk cfg env fs apk).1, isSignLaunch e = false := by
  intro e he
  rcases zipalign_events cfg env fs apk e he with h | ⟨m, h⟩ | ⟨p, h⟩ | ⟨a, b, h⟩ <;> rw [h]
  · exact isSignLaunch_align_cmd cfg apk
  · rfl
  · rfl
  · rfl

/-- C5 (confirmed): for every build invocation, the external aligner is
launched only when the internal sign step (run on the artifact determined by
this invocation) returned success; if signing returned failure the aligner is
never invoked. -/
theorem C5_theorem (cfg : Config) (env : Env) (fs : FS) (folder_path : String)
    (output_apk : Option String) (force show_log : Bool)
    (h : alignerLaunched (build cfg env fs folder_path output_apk force show_log).1) :
    ∃ apk, build_apk? cfg env fs folder_path output_apk force show_log = some apk ∧
      (sign_apk cfg env (build_fs1 cfg env fs folder_path output_apk force show_log) apk).2.2 =
        Except.ok true := by
  unfold build_fs1
  obtain ⟨e, he, hal⟩ := h
  cases happ : build_apk? cfg env fs folder_path output_apk force show_log with
  | none =>
      exfalso
      simp only [build, happ] at he
      rcases List.mem_append.mp he with h1 | h1
      · rw [build_run_no_align cfg env fs folder_path output_apk force show_log e h1] at hal
        cases hal
      · rw [List.mem_singleton.mp h1] at hal
        cases hal
  | some apk =>
      cases hsig : (sign_apk cfg env
          (build_run cfg env fs folder_path output_apk force show_log).2 apk).2.2 with
      | error e2 =>
          exfalso
          simp only [build, happ, hsig] at he
          rcases List.mem_append.mp he with h1 | h1
          · rw [build_run_no_align cfg env fs folder_path output_apk force show_log e h1] at hal
            cases hal
          · rw [sign_apk_no_align cfg env _ apk e h1] at hal
            cases hal
      | ok b =>
          cases b with
          | true => exact ⟨apk, rfl, hsig⟩
          | false =>
              exfalso
              simp only [build, happ, hsig] at he
              rcases List.mem_append.mp he with h1 | h1
              · rw [build_run_no_align cfg env fs folder_path output_apk force show_log e h1] at hal
                cases hal
              · rw [sign_apk_no_align cfg env _ apk e h1] at hal
                cases hal

/-- Witness for C5: in an environment where the whole chain succeeds, the
aligner is launched, and the theorem yields that signing returned success. -/
theorem C5_witness :
    ∃ apk, build_apk? cfgA envChainOk fsStale "proj" none true false = some apk ∧
      (sign_apk cfgA envChainOk (build_fs1 cfgA envChainOk fsStale "proj" none true false)
          apk).2.2 = Except.ok true :=
  C5_theorem cfgA envChainOk fsStale "proj" none true false (by decide)

/-- Counterexample to C1 as stated: the external build command exits with
code 1 (a failed build), yet the signer is launched afterwards, because a
stale artifact at the default output path exists on disk. -/
theorem C1_counterexample :
    envBuildFail.run (build_cmd cfgA envBuildFail "proj" none true) =
      ProcOutcome.finished 1 [] ∧
    signerLaunched (build cfgA envBuildFail fsStale "proj" none true false).1 := by
  exact ⟨rfl, by decide⟩

/-- C1 (corrected): in `build`, the signer process is launched exactly when
an artifact path is determined (the effective output path exists after the
build command, or the `dist` scan finds one) and the keystore exists; the
build command's exit status is not consulted, so a failed build with a stale
artifact still leads to signing. -/
theorem C1_theorem (cfg : Config) (env : Env) (fs : FS) (folder_path : String)
    (output_apk : Option String) (force show_log : Bool) :
    signerLaunched (build cfg env fs folder_path output_apk force show_log).1 ↔
      ((build_apk? cfg env fs folder_path output_apk force show_log).isSome ∧
        cfg.keystore_path ∈ build_fs1 cfg env fs folder_path output_apk force show_log) := by
  unfold build_fs1
  constructor
  · intro h
    obtain ⟨e, he, hsgn⟩ := h
    cases happ : build_apk? cfg env fs folder_path output_apk force show_log with
    | none =>
        exfalso
        simp only [build, happ] at he
        rcases List.mem_append.mp he with h1 | h1
        · rw [build_run_no_sign cfg env fs folder_path output_apk force show_log e h1] at hsgn
          cases hsgn
        · rw [List.mem_singleton.mp h1] at hsgn
          cases hsgn
    | some apk =>
        refine ⟨rfl, ?_⟩
        by_contra hks
        cases hsig : (sign_apk cfg env
            (build_run cfg env fs folder_path output_apk force show_log).2 apk).2.2 with
        | error e2 =>
            simp only [build, happ, hsig] at he
            rcases List.mem_append.mp he with h1 | h1
            · rw [build_run_no_sign cfg env fs folder_path output_apk force show_log e h1] at hsgn
              cases hsgn
            · rw [sign_apk_no_launch_of_missing cfg env _ apk hks e h1] at hsgn
              cases hsgn
        | ok b =>
            cases b with
            | true =>
                simp only [build, happ, hsig] at he
                rcases List.mem_append.mp he with h1 | h1
                · rcases List.mem_append.mp h1 with h2 | h2
                  · rw [build_run_no_sign cfg env fs folder_path output_apk force show_log
                        e h2] at hsgn
                    cases hsgn
                  · rw [sign_apk_no_launch_of_missing cfg env _ apk hks e h2] at hsgn
                    cases hsgn
                · rw [zipalign_no_sign cfg env _ apk e h1] at hsgn
                  cases hsgn
            | false =>
                simp only [build, happ, hsig] at he
                rcases List.mem_append.mp he with h1 | h1
                · rw [build_run_no_sign cfg env fs folder_path output_apk force show_log
                      e h1] at hsgn
                  cases hsgn
                · rw [sign_apk_no_launch_of_missing cfg env _ apk hks e h1] at hsgn
                  cases hsgn
  · intro h
    obtain ⟨hsome, hks⟩ := h
    cases happ : build_apk? cfg env fs folder_path output_apk force show_log with
    | none => rw [happ] at hsome; cases hsome
    | some apk =>
        have hmem := sign_apk_launch_mem cfg env
          (build_run cfg env fs folder_path output_apk force show_log).2 apk hks
        cases hsig : (sign_apk cfg env
            (build_run cfg env fs folder_path output_apk force show_log).2 apk).2.2 with
        | error e2 =>
            refine ⟨Event.launch (sign_cmd cfg apk), ?_, isSignLaunch_sign_cmd cfg apk⟩
            simp only [build, happ, hsig]
            exact List.mem_append_right _ hmem
        | ok b =>
            cases b with
            | true =>
                refine ⟨Event.launch (sign_cmd cfg apk), ?_, isSignLaunch_sign_cmd cfg apk⟩
                simp only [build, happ, hsig]
                exact List.mem_append_left _ (List.mem_append_right _ hmem)
            | false =>
                refine ⟨Event.launch (sign_cmd cfg apk), ?_, isSignLaunch_sign_cmd cfg apk⟩
                simp only [build, happ, hsig]
                exact List.mem_append_right _ hmem

/-- Witness for C1: applying the equivalence at a concrete input where the
artifact and keystore exist, the signer is launched even though the build
command failed. -/
theorem C1_witness :
    signerLaunched (build cfgA envBuildFail fsStale "proj" none true false).1 :=
  (C1_theorem cfgA envBuildFail fsStale "proj" none true false).mpr ⟨by decide, by decide⟩

/-- Counterexample to C4 as stated: the caller omits `outputPackage` and the
`dist` scan finds an artifact, yet `build` signs the default output path
`<folder>_Signed.apk` (which exists on disk) instead of the scan's first
match, contrary to the claimed "otherwise scan dist" rule. -/
theorem C4_counterexample :
    build_dist_apks cfgA envSignFail fsBoth "proj" none true false =
      ["/cwd/proj/dist/app.apk"] ∧
    Event.launch (sign_cmd cfgA "/cwd/proj_Signed.apk") ∈
      (build cfgA envSignFail fsBoth "proj" none true false).1 ∧
    Event.launch (sign_cmd cfgA "/cwd/proj/dist/app.apk") ∉
      (build cfgA envSignFail fsBoth "proj" none true false).1 := by
  refine ⟨by decide, by decide, by decide⟩

/-- C4 (corrected): after the build command, `build` signs the effective
output path — the caller's `outputPackage` or, when omitted, the default
`<folderPath>_Signed.apk` — whenever that path exists on disk; only otherwise
does it scan `dist` and sign the scan's first match; and when neither exists
it prints the no-artifact failure message, returns, and never launches the
signer. -/
theorem C4_theorem (cfg : Config) (env : Env) (fs : FS) (folder_path : String)
    (output_apk : Option String) (force show_log : Bool) :
    (effOut env (adjFolder env folder_path) output_apk ∈
        build_fs1 cfg env fs folder_path output_apk force show_log →
      cfg.keystore_path ∈ build_fs1 cfg env fs folder_path output_apk force show_log →
      Event.launch (sign_cmd cfg (effOut env (adjFolder env folder_path) output_apk)) ∈
        (build cfg env fs folder_path output_apk force show_log).1) ∧
    (effOut env (adjFolder env folder_path) output_apk ∉
        build_fs1 cfg env fs folder_path output_apk force show_log →
      ∀ a rest, build_dist_apks cfg env fs folder_path output_apk force show_log = a :: rest →
      cfg.keystore_path ∈ build_fs1 cfg env fs folder_path output_apk force show_log →
      Event.launch (sign_cmd cfg a) ∈
        (build cfg env fs folder_path output_apk force show_log).1) ∧
    (effOut env (adjFolder env folder_path) output_apk ∉
        build_fs1 cfg env fs folder_path output_apk force show_log →
      build_dist_apks cfg env fs folder_path output_apk force show_log = [] →
      Event.printed (foreRed ++ noApkMsg cfg ++ styleReset) ∈
        (build cfg env fs folder_path output_apk force show_log).1 ∧
      ¬ signerLaunched (build cfg env fs folder_path output_apk force show_log).1 ∧
      (build cfg env fs folder_path output_apk force show_log).2.2 = Except.ok ()) := by
  unfold build_fs1
  refine ⟨?_, ?_, ?_⟩
  · intro hmem hks
    have happ : build_apk? cfg env fs folder_path output_apk force show_log =
        some (effOut env (adjFolder env folder_path) output_apk) := by
      simp only [build_apk?]
      split
      · rfl
      · next hcond =>
          exfalso
          apply hcond
          rw [Bool.and_eq_true]
          refine ⟨bne_iff_ne.mpr (effOut_ne_empty env (adjFolder env folder_path) output_apk), ?_⟩
          exact decide_eq_true (by unfold build_fs1; exact hmem)
    have hmemS := sign_apk_launch_mem cfg env
      (build_run cfg env fs folder_path output_apk force show_log).2
      (effOut env (adjFolder env folder_path) output_apk) hks
    cases hsig : (sign_apk cfg env
        (build_run cfg env fs folder_path output_apk force show_log).2
        (effOut env (adjFolder env folder_path) output_apk)).2.2 with
    | error e2 =>
        simp only [build, happ, hsig]
        exact List.mem_append_right _ hmemS
    | ok b =>
        cases b with
        | true =>
            simp only [build, happ, hsig]
            exact List.mem_append_left _ (List.mem_append_right _ hmemS)
        | false =>
            simp only [build, happ, hsig]
            exact List.mem_append_right _ hmemS
  · intro hnot a rest hdist hks
    have happ : build_apk? cfg env fs folder_path output_apk force show_log = some a := by
      simp only [build_apk?]
      rw [if_neg (by simp [build_fs1, hnot])]
      rw [hdist]
      rfl
    have hmemS := sign_apk_launch_mem cfg env
      (build_run cfg env fs folder_path output_apk force show_log).2 a hks
    cases hsig : (sign_apk cfg env
        (build_run cfg env fs folder_path output_apk force show_log).2 a).2.2 with
    | error e2 =>
        simp only [build, happ, hsig]
        exact List.mem_append_right _ hmemS
    | ok b =>
        cases b with
        | true =>
            simp only [build, happ, hsig]
            exact List.mem_append_left _ (List.mem_append_right _ hmemS)
        | false =>
            simp only [build, happ, hsig]
            exact List.mem_append_right _ hmemS
  · intro hnot hdist
    have happ : build_apk? cfg env fs folder_path output_apk force show_log = none := by
      simp only [build_apk?]
      rw [if_neg (by simp [build_fs1, hnot])]
      rw [hdist]
      rfl
    refine ⟨?_, ?_, ?_⟩
    · simp only [build, happ]
      exact List.mem_append_right _ (List.mem_singleton.mpr rfl)
    · intro hs
      obtain ⟨e, he, hsgn⟩ := hs
      simp only [build, happ] at he
      rcases List.mem_append.mp he with h1 | h1
      · rw [build_run_no_sign cfg env fs folder_path output_apk force show_log e h1] at hsgn
        cases hsgn
      · rw [List.mem_singleton.mp h1] at hsgn
        cases hsgn
    · simp only [build, happ]

/-- Witness for C4 at concrete inputs: with the default output path on disk
the signer targets it, and with no artifact at all the signer is never
launched. -/
theorem C4_witness :
    Event.launch (sign_cmd cfgA (effOut envSignFail (adjFolder envSignFail "proj") none)) ∈
      (build cfgA envSignFail fsBoth "proj" none true false).1 ∧
    ¬ signerLaunched (build cfgA envSignFail ["/t/ks"] "proj" none true false).1 := by
  constructor
  · exact (C4_theorem cfgA envSignFail fsBoth "proj" none true false).1 (by decide) (by decide)
  · exact ((C4_theorem cfgA envSignFail ["/t/ks"] "proj" none true false).2.2
      (by decide) (by decide)).2.1

/-- Counterexample to C7 as stated: when the signer process cannot be
launched, the exception propagates out of `build` to the caller instead of
being reported only via a printed message. -/
theorem C7_counterexample :
    (build cfgA envSignLaunchFail fsStale "proj" none true false).2.2 =
      Except.error (PyExn.osError "No such file or directory") := by
  decide

/-- C7 (corrected): a launched process that exits non-zero never raises an
exception out of `build` (such failures are only printed): every exception
`build` propagates is a launch failure (`OSError`) or a file-system error
(`FileNotFoundError`) from the sign or align steps, never a
`CalledProcessError`. -/
theorem C7_theorem (cfg : Config) (env : Env) (fs : FS) (folder_path : String)
    (output_apk : Option String) (force show_log : Bool) (e : PyExn)
    (h : (build cfg env fs folder_path output_apk force show_log).2.2 = Except.error e) :
    isCalledProcessErrorExn e = false := by
  cases happ : build_apk? cfg env fs folder_path output_apk force show_log with
  | none =>
      simp only [build, happ] at h
      simp at h
  | some apk =>
      cases hsig : (sign_apk cfg env
          (build_run cfg env fs folder_path output_apk force show_log).2 apk).2.2 with
      | error e2 =>
          simp only [build, happ, hsig] at h
          obtain ⟨m, hm⟩ := sign_apk_error_shape cfg env _ apk hsig
          injection h with h2
          rw [← h2, hm]
          rfl
      | ok b =>
          cases b with
          | true =>
              simp only [build, happ, hsig] at h
              exact zipalign_error_shape cfg env _ apk h
          | false =>
              simp only [build, happ, hsig] at h
              simp at h

/-- Witness for C7: applying the theorem at a concrete input whose signer
launch fails shows the propagated exception is not a `CalledProcessError`. -/
theorem C7_witness :
    isCalledProcessErrorExn (PyExn.osError "No such file or directory") = false :=
  C7_theorem cfgA envSignLaunchFail fsStale "proj" none true false _ (by decide)

theorem launchErrorMsg_redacted (cfg : Config) (m : String)
    (hinc : cfg.include_paths_in_messages = false) :
    launchErrorMsg cfg m = splitQuoteHead ("Error during command execution: " ++ m) := by
  simp [launchErrorMsg, hinc]

theorem returnCodeMsg_redacted (cfg : Config) (code : Int)
    (hinc : cfg.include_paths_in_messages = false) :
    returnCodeMsg cfg code =
      splitQuoteHead ("Command failed with return code " ++ toString code) := by
  simp [returnCodeMsg, hinc]

theorem quoteFree_wrap (color s : String) (hc : quoteFree color = true)
    (hs : quoteFree s = true) : quoteFree (color ++ s ++ styleReset) = true := by
  rw [quoteFree_append, quoteFree_append, hc, hs]
  rfl

theorem run_command_quoteFree (cfg : Config) (env : Env) (fs : FS) (cmd : List String)
    (sm : Option String) (hinc : cfg.include_paths_in_messages = false) :
    ∀ m, Event.printed m ∈ (run_command cfg env fs cmd false sm).1 → quoteFree m = true := by
  intro m hm
  cases henv : env.run cmd with
  | launchFailure msg =>
      simp only [run_command, henv] at hm
      simp at hm
      subst hm
      rw [launchErrorMsg_redacted cfg msg hinc]
      exact quoteFree_wrap _ _ (by decide) (quoteFree_splitQuoteHead _)
  | finished code outLines =>
      simp only [run_command, henv] at hm
      cases hc : code == 0 with
      | false =>
          simp [hc] at hm
          subst hm
          rw [returnCodeMsg_redacted cfg code hinc]
          exact quoteFree_wrap _ _ (by decide) (quoteFree_splitQuoteHead _)
      | true =>
          cases sm with
          | none => simp [hc] at hm
          | some m0 =>
              simp [hc, hinc] at hm
              subst hm
              exact quoteFree_wrap _ _ (by decide)
                (quoteFree_pyStrip _ (quoteFree_splitQuoteHead _))

theorem build_run_quoteFree (cfg : Config) (env : Env) (fs : FS) (folder_path : String)
    (output_apk : Option String) (force : Bool) (hinc : cfg.include_paths_in_messages = false) :
    ∀ m, Event.printed m ∈ (build_run cfg env fs folder_path output_apk force false).1 →
      quoteFree m = true := by
  unfold build_run
  exact run_command_quoteFree cfg env fs _ _ hinc

theorem sign_apk_quoteFree (cfg : Config) (env : Env) (fs : FS) (apk : String)
    (hinc : cfg.include_paths_in_messages = false) :
    ∀ m, Event.printed m ∈ (sign_apk cfg env fs apk).1 → quoteFree m = true := by
  intro m hm
  unfold sign_apk at hm
  by_cases hks : cfg.keystore_path ∈ fs
  · rw [if_pos hks] at hm
    cases henv : env.run (sign_cmd cfg apk) with
    | launchFailure msg =>
        simp only [henv] at hm
        simp at hm
    | finished code outLines =>
        simp only [henv] at hm
        cases hc : code == 0 with
        | true =>
            simp [hc] at hm
            subst hm
            rw [show signSuccessMsg cfg apk = "Successfully signed." from by
              simp [signSuccessMsg, hinc]]
            decide
        | false =>
            simp [hc] at hm
            subst hm
            rw [show signFailMsg cfg (sign_cmd cfg apk) code = "Failed to sign APK." from by
              simp [signFailMsg, hinc]]
            decide
  · rw [if_neg hks] at hm
    simp at hm
    subst hm
    rw [show keystoreMissingMsg cfg = "Keystore not found." from by
      simp [keystoreMissingMsg, hinc]]
    decide

theorem zipalign_quoteFree (cfg : Config) (env : Env) (fs : FS) (apk : String)
    (hinc : cfg.include_paths_in_messages = false) :
    ∀ m, Event.printed m ∈ (zipalign_apk cfg env fs apk).1 → quoteFree m = true := by
  intro m hm
  unfold zipalign_apk at hm
  cases henv : env.run (align_cmd cfg apk) with
  | launchFailure msg =>
      simp only [henv] at hm
      simp at hm
  | finished code outLines =>
      simp only [henv] at hm
      split at hm
      · split at hm
        · split at hm
          · simp at hm
            subst hm
            rw [show zipalignSuccessMsg cfg apk = "Successfully zipaligned." from by
              simp [zipalignSuccessMsg, hinc]]
            decide
          · simp at hm
        · simp at hm
      · simp at hm
        subst hm
        rw [show zipalignFailMsg cfg (align_cmd cfg apk) code = "Failed to zipalign APK." from by
          simp [zipalignFailMsg, hinc]]
        decide

/-- Counterexample to C8 as stated: with the path flag disabled but `showLog`
enabled, a tool output line carrying a quoted filesystem path is printed
verbatim, so a printed message does contain a path segment beyond the first
quoted token boundary. -/
theorem C8_counterexample :
    cfgA.include_paths_in_messages = false ∧
    Event.printed (foreBlue ++ secretLogLine ++ styleReset) ∈
      (decompile cfgA envLog [] "app.apk" none true true).1 ∧
    quoteFree (foreBlue ++ secretLogLine ++ styleReset) = false ∧
    containsSub (foreBlue ++ secretLogLine ++ styleReset) "/tmp/secret" = true := by
  refine ⟨rfl, by decide, by decide, by decide⟩

/-- C8 (corrected): with the path flag disabled and `showLog` disabled, every
message printed by any of the five operations is either truncated at the
first quote or a fixed short form, hence contains no single-quote character
(and so no path beyond a quoted token boundary); streamed tool output under
`showLog` is exempt, being printed verbatim. -/
theorem C8_theorem (cfg : Config) (env : Env) (fs : FS) (p : String) (o t : Option String)
    (force : Bool) (hinc : cfg.include_paths_in_messages = false) :
    (∀ m, Event.printed m ∈ (decompile cfg env fs p o force false).1 → quoteFree m = true) ∧
    (∀ m, Event.printed m ∈ (build cfg env fs p o force false).1 → quoteFree m = true) ∧
    (∀ m, Event.printed m ∈ (install_framework cfg env fs p t force false).1 →
      quoteFree m = true) ∧
    (∀ m, Event.printed m ∈ (empty_framework_dir cfg env fs false).1 → quoteFree m = true) := by
  refine ⟨?_, ?_, ?_, ?_⟩
  · intro m hm
    simp only [decompile] at hm
    exact run_command_quoteFree cfg env fs _ _ hinc m hm
  · intro m hm
    cases happ : build_apk? cfg env fs p o force false with
    | none =>
        simp only [build, happ] at hm
        rcases List.mem_append.mp hm with h1 | h1
        · exact build_run_quoteFree cfg env fs p o force hinc m h1
        · rw [show m = foreRed ++ noApkMsg cfg ++ styleReset from by
            simpa using List.mem_singleton.mp h1]
          rw [show noApkMsg cfg = "No APK file found after build." from by
            simp [noApkMsg, hinc]]
          decide
    | some apk =>
        cases hsig : (sign_apk cfg env (build_run cfg env fs p o force false).2 apk).2.2 with
        | error e2 =>
            simp only [build, happ, hsig] at hm
            rcases List.mem_append.mp hm with h1 | h1
            · exact build_run_quoteFree cfg env fs p o force hinc m h1
            · exact sign_apk_quoteFree cfg env _ apk hinc m h1
        | ok b =>
            cases b with
            | true =>
                simp only [build, happ, hsig] at hm
                rcases List.mem_append.mp hm with h1 | h1
                · rcases List.mem_append.mp h1 with h2 | h2
                  · exact build_run_quoteFree cfg env fs p o force hinc m h2
                  · exact sign_apk_quoteFree cfg env _ apk hinc m h2
                · exact zipalign_quoteFree cfg env _ apk hinc m h1
            | false =>
                simp only [build, happ, hsig] at hm
                rcases List.mem_append.mp hm with h1 | h1
                · exact build_run_quoteFree cfg env fs p o force hinc m h1
                · exact sign_apk_quoteFree cfg env _ apk hinc m h1
  · intro m hm
    simp only [install_framework] at hm
    exact run_command_quoteFree cfg env fs _ _ hinc m hm
  · intro m hm
    simp only [empty_framework_dir] at hm
    exact run_command_quoteFree cfg env fs _ _ hinc m hm

/-- Witness for C8: the success message of a concrete build invocation,
redacted by truncation at the first quote, is quote-free. -/
theorem C8_witness :
    quoteFree (foreGreen ++ pyStrip (splitQuoteHead
      ("Successfully built " ++ sq ++ adjFolder envAllZero "proj" ++ sq)) ++ styleReset) =
      true :=
  (C8_theorem cfgA envAllZero [] "proj" none none true rfl).2.1 _ (by decide)

end Apk
